import Mathlib

/-!
Shallow embedding of the Vaughan wallet network diagnostic tools
(`tools/debug/simple_network_test.py`, `tools/debug/network_debug.py`,
`tools/debug/find_accounts.py`, `tools/debug/check_real_balances.py`).

The network is modelled by a `WireOutcome` per request: either the HTTP
library raised an exception (`exn`, covering timeouts, refusals,
certificate errors, name-resolution failures and HTTP error statuses
raised by `urlopen`/`aiohttp`), or a response with an HTTP status code
came back whose body either parsed as JSON (we keep only the optional
`result` member, the sole member the scripts read) or was malformed
(the JSON decode error is then raised and caught like any other
exception inside the surrounding `try` block).

Python exceptions escaping a function are modelled with
`Except String`; Python values read from JSON are `JVal` (string or
null — the only shapes the scripts' code paths distinguish).
-/

namespace Vaughan

/-- A JSON value as carried by the `result` member of a response body:
the scripts only ever treat it as a string (hex string or client
version) or as null. -/
inductive JVal
  | s (v : String)
  | null
deriving DecidableEq

/-- The decoded JSON body of a JSON-RPC response; only the optional
`result` member is read by any of the scripts. -/
structure RpcBody where
  result? : Option JVal
deriving DecidableEq

/-- What `json.loads(response.read())` does with a returned body. -/
inductive BodyOutcome
  | json (b : RpcBody)
  | malformed (msg : String)
deriving DecidableEq

/-- The outcome of one HTTP POST at the wire: the client library either
raised (timeout, refusal, certificate error, DNS failure, HTTPError) or
delivered a response with a final status code and a body. -/
inductive WireOutcome
  | response (status : Nat) (body : BodyOutcome)
  | exn (msg : String)
deriving DecidableEq

/-- Python truthiness of the `JVal`s that occur: `None` is falsy, a
string is truthy iff nonempty. -/
def pyTruthy : JVal → Bool
  | .s v => if v = "" then false else true
  | .null => false

/-- Python `str.strip()` on a character list: whitespace removed from
both ends. -/
def pyStripChars (cs : List Char) : List Char :=
  ((cs.dropWhile Char.isWhitespace).reverse.dropWhile Char.isWhitespace).reverse

/-- Python `str.strip()`. -/
def pyStrip (s : String) : String :=
  ⟨pyStripChars s.toList⟩

/-- Python `s.startswith('0x')` — the only marker tested anywhere in
the scripts. -/
def startsWith0x : List Char → Bool
  | '0' :: 'x' :: _ => true
  | _ => false

/-- Hex value of one character, as accepted by Python `int(_, 16)`:
the code points of `0`-`9`, `a`-`f` and `A`-`F` carry values 0-15. -/
def hexDigitValue (c : Char) : Option Nat :=
  let n := c.toNat
  if 48 ≤ n && n ≤ 57 then some (n - 48)
  else if 97 ≤ n && n ≤ 102 then some (n - 87)
  else if 65 ≤ n && n ≤ 70 then some (n - 55)
  else none

/-- Accumulating big-endian hex fold; `none` on the first non-hex
character. -/
def hexCore : Nat → List Char → Option Nat
  | acc, [] => some acc
  | acc, c :: cs =>
      match hexDigitValue c with
      | some d => hexCore (acc * 16 + d) cs
      | none => none

/-- Big-endian parse of a nonempty all-hex character list. -/
def parseHexDigits (cs : List Char) : Option Nat :=
  if cs.isEmpty then none else hexCore 0 cs

/-- Python `int(_, 16)` accepts an optional `0x`/`0X` marker before the
digits. -/
def stripHexMark : List Char → List Char
  | '0' :: 'x' :: rest => rest
  | '0' :: 'X' :: rest => rest
  | cs => cs

/-- Embedding of Python `int(s, 16)`: surrounding whitespace is
stripped, an optional sign and an optional `0x` marker are accepted,
then at least one hex digit is required; anything else raises
`ValueError` (modelled as `.error` carrying the message format of
CPython). Digit-group underscores, accepted by CPython, are not
modelled — no input considered here contains them. -/
def pyIntHex (s : String) : Except String Int :=
  let cs := pyStripChars s.toList
  let signed : Int × List Char :=
    match cs with
    | '-' :: r => (-1, r)
    | '+' :: r => (1, r)
    | r => (1, r)
  match parseHexDigits (stripHexMark signed.2) with
  | some n => .ok (signed.1 * (n : Int))
  | none => .error ("invalid literal for int() with base 16: " ++ s)

/-- Python `int(v, 16)` applied to a decoded JSON value: a null raises
`TypeError` rather than `ValueError`. -/
def pyIntHexJ : JVal → Except String Int
  | .s v => pyIntHex v
  | .null => .error "TypeError: int() argument must be a string"

/-- The fixed RPC battery, in the order both scripts issue it. -/
inductive Method
  | clientVersion
  | chainId
  | getBalance
  | blockNumber
deriving DecidableEq

/-- Wire name of each battery method. -/
def methodName : Method → String
  | .clientVersion => "web3_clientVersion"
  | .chainId => "eth_chainId"
  | .getBalance => "eth_getBalance"
  | .blockNumber => "eth_blockNumber"

/-- Params of each battery method (only `eth_getBalance` has any). -/
def methodParams (acct : String) : Method → List String
  | .getBalance => [acct, "latest"]
  | _ => []

/-- The JSON-RPC request object built by `make_rpc_call`
(`simple_network_test.py` lines 89-94) and inline by
`network_debug.py`; the `id` member is the literal `1` in every
request of both scripts. -/
structure RpcRequest where
  jsonrpc : String
  method : String
  params : List String
  id : Nat
deriving DecidableEq

/-- Request construction: both scripts hardcode `"id": 1`. -/
def mkRequest (acct : String) (m : Method) : RpcRequest :=
  { jsonrpc := "2.0", method := methodName m, params := methodParams acct m, id := 1 }

/-- Battery order per endpoint. -/
def batteryMethods : List Method :=
  [.clientVersion, .chainId, .getBalance, .blockNumber]

/-- All JSON-RPC requests issued during a run over `urls`: four battery
requests per endpoint, in order. -/
def runRequests (urls : List String) (acct : String) : List (String × RpcRequest) :=
  urls.flatMap (fun u => batteryMethods.map (fun m => (u, mkRequest acct m)))

/-- The hardcoded module-level account address of
`simple_network_test.py` line 26 / `network_debug.py` line 27. -/
def ACCOUNT_ADDRESS : String := "0x742D35B4aC0EA09d926D0e37a59eAeE71D3E4143"

/-- Decidable equality for `Except`, so concrete runs can be settled by
`decide`. -/
instance {ε α : Type} [DecidableEq ε] [DecidableEq α] : DecidableEq (Except ε α) :=
  fun a b =>
    match a, b with
    | .ok x, .ok y =>
        if h : x = y then .isTrue (by rw [h]) else .isFalse (by intro hc; injection hc; contradiction)
    | .error x, .error y =>
        if h : x = y then .isTrue (by rw [h]) else .isFalse (by intro hc; injection hc; contradiction)
    | .ok _, .error _ => .isFalse (by intro hc; exact Except.noConfusion hc)
    | .error _, .ok _ => .isFalse (by intro hc; exact Except.noConfusion hc)

namespace SimpleNet

/-!
Embedding of `tools/debug/simple_network_test.py`.
-/

/-- The value returned by `make_rpc_call` (lines 84-130): a dict with
`status` either `OK` (HTTP 200, JSON parsed; carries the body) or
`FAILED` (non-200 status, or any exception, whose message is carried).
The `response_time` member is not modelled — no claim depends on
latency values. -/
inductive RpcCallResult
  | ok (body : RpcBody)
  | failed (error : String)
deriving DecidableEq

/-- Embedding of `make_rpc_call` (lines 107-130): `urlopen` inside `try`; an HTTP
200 with a JSON body yields `status OK`; a non-200 final status yields
`FAILED "HTTP <status>"`; every exception (timeout, refusal,
certificate error, DNS failure, `HTTPError`, JSON decode error) is
caught and yields `FAILED str(e)`. -/
def make_rpc_call : WireOutcome → RpcCallResult
  | .exn m => .failed m
  | .response s b =>
      if s = 200 then
        match b with
        | .json rb => .ok rb
        | .malformed m => .failed m
      else .failed ("HTTP " ++ toString s)

/-- Per-method printed classification in `test_rpc_endpoints`:
a check-mark line, the warning line of a chain-id mismatch, or a
cross-mark failure line. -/
inductive SOut
  | okS
  | warnS
  | failS
deriving DecidableEq

/-- True exactly on the check-mark outcome. -/
def SOut.isOkS : SOut → Bool
  | .okS => true
  | _ => false

/-- Client-version step (lines 143-149): any `status OK` call counts as
a success — a missing `result` member falls back to `'Unknown'` and is
still printed as OK. -/
def stepClientVersion (w : WireOutcome) : SOut :=
  match make_rpc_call w with
  | .ok _ => .okS
  | .failed _ => .failS

/-- Chain-id step (lines 151-163): on `status OK` the code reads
`result.get('result', '0x0')`, computes
`int(chain_id_hex, 16) if chain_id_hex else 0` — the `int` call can
raise `ValueError` out of the whole checker — and compares with 943;
a mismatch prints the warning and clears `endpoint_working`. -/
def stepChainId (w : WireOutcome) : Except String (SOut × Int) :=
  match make_rpc_call w with
  | .ok body =>
      let hexv := body.result?.getD (JVal.s "0x0")
      match (if pyTruthy hexv then pyIntHexJ hexv else .ok 0) with
      | .ok chain_id =>
          if chain_id = 943 then .ok (.okS, chain_id) else .ok (.warnS, chain_id)
      | .error e => .error e
  | .failed _ => .ok (.failS, 0)

/-- Balance step (lines 166-178): on `status OK` the code reads
`result.get('result', '0x0')`; a truthy value is parsed with `int(_, 16)`
(which can raise out of the checker) and printed OK, a falsy one is the
`No result in response` failure. -/
def stepBalance (w : WireOutcome) : Except String SOut :=
  match make_rpc_call w with
  | .ok body =>
      let bh := body.result?.getD (JVal.s "0x0")
      if pyTruthy bh then
        match pyIntHexJ bh with
        | .ok _ => .ok .okS
        | .error e => .error e
      else .ok .failS
  | .failed _ => .ok .failS

/-- Block-number step (lines 181-192): code identical in shape to the
balance step. -/
def stepBlock (w : WireOutcome) : Except String SOut :=
  match make_rpc_call w with
  | .ok body =>
      let bh := body.result?.getD (JVal.s "0x0")
      if pyTruthy bh then
        match pyIntHexJ bh with
        | .ok _ => .ok .okS
        | .error e => .error e
      else .ok .failS
  | .failed _ => .ok .failS

/-- The observable record of one endpoint's battery in
`test_rpc_endpoints`: the four printed per-method classifications and
the final `endpoint_working` flag. -/
structure SimpleReport where
  clientVersion : SOut
  chainId : SOut
  balance : SOut
  blockNumber : SOut
  working : Bool
deriving DecidableEq

/-- Field selector by method. -/
def SimpleReport.fieldOf (r : SimpleReport) : Method → SOut
  | .clientVersion => r.clientVersion
  | .chainId => r.chainId
  | .getBalance => r.balance
  | .blockNumber => r.blockNumber

/-- One endpoint's battery (lines 140-195): the four steps run in
order; `endpoint_working` stays true iff every step printed its
check-mark line (a chain-id mismatch clears it too). A `ValueError`
raised by a hex parse escapes the function. -/
def testOneEndpoint (env : Method → WireOutcome) : Except String SimpleReport := do
  let cv := stepClientVersion (env .clientVersion)
  let cid ← stepChainId (env .chainId)
  let bal ← stepBalance (env .getBalance)
  let blk ← stepBlock (env .blockNumber)
  pure
    { clientVersion := cv
      chainId := cid.1
      balance := bal
      blockNumber := blk
      working := cv.isOkS && cid.1.isOkS && bal.isOkS && blk.isOkS }

/-- Embedding of `test_rpc_endpoints` (lines 132-197): loops over the endpoint list,
collecting the per-endpoint reports (the printed lines) and appending
each endpoint whose flag survived to `working_endpoints`, in input
order. An escaped `ValueError` aborts the remaining endpoints. -/
def simpleRun :
    List String → (String → Method → WireOutcome) →
      Except String (List (String × SimpleReport) × List String)
  | [], _ => .ok ([], [])
  | u :: rest, env => do
      let r ← testOneEndpoint (env u)
      let p ← simpleRun rest env
      pure ((u, r) :: p.1, if r.working then u :: p.2 else p.2)

/-- Exit status of the script: `main()` never calls `sys.exit`, and the
`__main__` guard (lines 341-349) catches `KeyboardInterrupt` and every
`Exception`, prints, and falls off the end — so the interpreter exits 0
on every path, run outcome and endpoint health notwithstanding. -/
def script_exit_code (urls : List String) (env : String → Method → WireOutcome) : Nat :=
  match simpleRun urls env with
  | .ok _ => 0
  | .error _ => 0

/-- Outcome of one TLS probe in `test_ssl_connectivity`
(lines 63-82): handshake succeeded (carrying the TLS version printed)
or raised (message printed). -/
inductive SslOutcome
  | ok (ver : String)
  | err (msg : String)
deriving DecidableEq

/-- True on a successful handshake. -/
def SslOutcome.isOkSsl : SslOutcome → Bool
  | .ok _ => true
  | .err _ => false

/-- Embedding of `test_ssl_connectivity` (lines 63-82): each endpoint's handshake is
attempted inside its own `try`, a failure only prints and the loop
continues; `success_count` counts the successes. -/
def ssl_success_count (urls : List String) (env : String → SslOutcome) : Nat :=
  urls.foldl (fun acc u => match env u with | .ok _ => acc + 1 | .err _ => acc) 0

/-- Output of `analyze_and_recommend` (lines 260-316): the issue lines,
the recommendation lines (emoji markers elided), and the recommended
endpoint `working_endpoints[0]` when one exists. -/
structure SimpleAnalysis where
  issues : List String
  recommendations : List String
  recommended : Option String
deriving DecidableEq

/-- Embedding of `analyze_and_recommend` (lines 260-316): deterministic assembly of
issues and recommendations from the four inputs; no clock, randomness
or other state is read. -/
def analyze_and_recommend (working_endpoints : List String)
    (has_internet has_dns has_ssl : Bool) : SimpleAnalysis :=
  let issues :=
    (if has_internet then [] else ["No internet connectivity"]) ++
    (if has_dns then [] else ["DNS resolution problems"]) ++
    (if has_ssl then [] else ["SSL/TLS connection problems"]) ++
    (if working_endpoints.isEmpty then ["No RPC endpoints are working"] else [])
  let recommendations :=
    (if has_internet then [] else
      ["1. Check your internet connection", "2. Restart your network manager"]) ++
    (if has_dns then [] else
      ["3. Check DNS servers in /etc/resolv.conf",
       "4. Try: sudo systemctl restart systemd-resolved"]) ++
    (if has_ssl then [] else
      ["5. Check system time: timedatectl",
       "6. Update CA certificates: sudo pacman -S ca-certificates"]) ++
    (if working_endpoints.isEmpty then
      ["7. Try using a VPN or different network",
       "8. Check if your ISP blocks crypto-related traffic",
       "9. Temporarily disable firewall: sudo ufw disable"] else [])
  { issues := issues
    recommendations := recommendations
    recommended := working_endpoints.head? }

end SimpleNet

namespace NetDebug

/-!
Embedding of `tools/debug/network_debug.py` (`NetworkDiagnostic`).
Each battery method runs inside its own `try`/`except Exception`
block, so every failure — network, HTTP status, JSON decode, or hex
parse — is recorded as a `status FAILED` entry of `endpoint_results`
and never escapes the method block.
-/

/-- An `endpoint_results` entry without a decoded number
(`web3_clientVersion`). -/
inductive NDGenRes
  | ok (value : JVal)
  | failed (e : String)
deriving DecidableEq

/-- An `endpoint_results` entry carrying a decoded integer
(`eth_chainId`, `eth_getBalance`, `eth_blockNumber`). -/
inductive NDNumRes
  | ok (n : Int)
  | failed (e : String)
deriving DecidableEq

/-- Holds when `status == OK`. -/
def NDGenRes.isOkRes : NDGenRes → Bool
  | .ok _ => true
  | .failed _ => false

/-- Holds when `status == OK`. -/
def NDNumRes.isOkRes : NDNumRes → Bool
  | .ok _ => true
  | .failed _ => false

/-- Embedding of the `web3_clientVersion` block (lines 163-193): HTTP 200 records
`data.get('result', 'Unknown')` with status OK; any other status or
exception records FAILED. -/
def clientVersionStep : WireOutcome → NDGenRes
  | .exn m => .failed m
  | .response s b =>
      if s = 200 then
        match b with
        | .json rb => .ok (rb.result?.getD (JVal.s "Unknown"))
        | .malformed m => .failed m
      else .failed ("HTTP " ++ toString s)

/-- Embedding of the `eth_chainId` block (lines 195-229): HTTP 200 applies
`int(data.get('result', '0x0'), 16)` inside the `try` — a parse
failure is caught and recorded FAILED; a successful parse is recorded
OK whatever the value (a mismatch with 943 only prints a warning). -/
def chainIdStep : WireOutcome → NDNumRes
  | .exn m => .failed m
  | .response s b =>
      if s = 200 then
        match b with
        | .json rb =>
            match pyIntHexJ (rb.result?.getD (JVal.s "0x0")) with
            | .ok n => .ok n
            | .error e => .failed e
        | .malformed m => .failed m
      else .failed ("HTTP " ++ toString s)

/-- Embedding of the `eth_getBalance` block (lines 231-267): HTTP 200 checks
`'result' in data` explicitly and raises (caught, FAILED) when the
member is absent; a present member is parsed with `int(_, 16)` inside
the `try`. -/
def getBalanceStep : WireOutcome → NDNumRes
  | .exn m => .failed m
  | .response s b =>
      if s = 200 then
        match b with
        | .json rb =>
            match rb.result? with
            | some v =>
                match pyIntHexJ v with
                | .ok n => .ok n
                | .error e => .failed e
            | none => .failed "No result in response"
        | .malformed m => .failed m
      else .failed ("HTTP " ++ toString s)

/-- Embedding of the `eth_blockNumber` block (lines 269-300): same shape as the
chain-id block. -/
def blockNumberStep : WireOutcome → NDNumRes
  | .exn m => .failed m
  | .response s b =>
      if s = 200 then
        match b with
        | .json rb =>
            match pyIntHexJ (rb.result?.getD (JVal.s "0x0")) with
            | .ok n => .ok n
            | .error e => .failed e
        | .malformed m => .failed m
      else .failed ("HTTP " ++ toString s)

/-- The `endpoint_results` dict for one endpoint: one entry per battery
method. -/
structure NDEndpoint where
  clientVersion : NDGenRes
  chainId : NDNumRes
  getBalance : NDNumRes
  blockNumber : NDNumRes
deriving DecidableEq

/-- One endpoint's battery in `test_rpc_endpoints` (lines 154-304):
the four independent method blocks. -/
def battery (env : Method → WireOutcome) : NDEndpoint :=
  { clientVersion := clientVersionStep (env .clientVersion)
    chainId := chainIdStep (env .chainId)
    getBalance := getBalanceStep (env .getBalance)
    blockNumber := blockNumberStep (env .blockNumber) }

/-- Embedding of `analyze_results` line 407: `all(test.get('status') == 'OK' for
test in tests.values())`. -/
def allOk (t : NDEndpoint) : Bool :=
  t.clientVersion.isOkRes && t.chainId.isOkRes && t.getBalance.isOkRes && t.blockNumber.isOkRes

/-- The `rpc_results` mapping built by the loop of
`test_rpc_endpoints`: insertion-ordered, keyed by the endpoint URL. -/
def run (urls : List String) (env : String → Method → WireOutcome) :
    List (String × NDEndpoint) :=
  urls.map (fun u => (u, battery (env u)))

/-- Embedding of `analyze_results` lines 404-408: the loop over `rpc_results.items()`
appending each all-OK endpoint to `working_endpoints`. -/
def workingList (rs : List (String × NDEndpoint)) : List String :=
  rs.foldl (fun acc p => if allOk p.2 then acc ++ [p.1] else acc) []

/-- Exit status: `asyncio.run(main())` sits in a `try` whose handlers
(lines 471-479) catch `KeyboardInterrupt` and every `Exception` and
fall through, so the interpreter exits 0 on every path. -/
def ndExitCode (urls : List String) (env : String → Method → WireOutcome) : Nat :=
  let _ := run urls env
  0

/-- The slice of `self.results` that `analyze_results` reads: internet
status, the DNS-failed hostnames, the SSL-failed URLs, the
`rpc_results` mapping and the detected proxy variable names. -/
structure NDResults where
  internetOk : Bool
  dnsFailed : List String
  sslFailed : List String
  rpc : List (String × NDEndpoint)
  proxy : List String
deriving DecidableEq

/-- Output of `analyze_results` (lines 370-441): issue lines,
recommendation lines and the working-endpoint list (emoji markers
elided from the strings). -/
structure NDAnalysis where
  issues : List String
  recommendations : List String
  working : List String
deriving DecidableEq

/-- Embedding of `analyze_results` (lines 370-441): a deterministic assembly from
the collected results — no clock, randomness or state outside
`self.results` is consulted. -/
def analyze_results (r : NDResults) : NDAnalysis :=
  let working := workingList r.rpc
  let issues :=
    (if r.internetOk then [] else ["No internet connectivity"]) ++
    (if r.dnsFailed.isEmpty then [] else
      ["DNS resolution failed for: " ++ String.intercalate ", " r.dnsFailed]) ++
    (if r.sslFailed.isEmpty then [] else
      ["SSL/TLS connection failed for " ++ toString r.sslFailed.length ++ " endpoints"]) ++
    (if working.isEmpty then ["No RPC endpoints are working"] else []) ++
    (if r.proxy.isEmpty then [] else ["Proxy detected - may interfere with RPC calls"])
  let recommendations :=
    (if r.internetOk then [] else
      ["1. Check your internet connection", "2. Verify network adapter is working"]) ++
    (if r.dnsFailed.isEmpty then [] else
      ["3. Try switching DNS servers (8.8.8.8, 1.1.1.1)",
       "4. Check /etc/resolv.conf configuration"]) ++
    (if r.sslFailed.isEmpty then [] else
      ["5. Check system time and date", "6. Update CA certificates"]) ++
    (if working.isEmpty then
      ["7. Check firewall settings", "8. Try connecting from a different network"] else []) ++
    (if r.proxy.isEmpty then [] else ["9. Try disabling proxy temporarily"])
  { issues := issues, recommendations := recommendations, working := working }

end NetDebug

namespace FindAccounts

/-!
Embedding of `tools/debug/find_accounts.py`.
-/

/-- Embedding of `make_rpc_call` (lines 17-44): returns `result.get('result')` on an
HTTP 200 with a JSON body — a JSON null decodes to Python `None` and is
indistinguishable from an absent member at this interface — and `None`
on a non-200 status or any exception (which is caught and printed). -/
def make_rpc_call : WireOutcome → Option String
  | .exn _ => none
  | .response s b =>
      if s = 200 then
        match b with
        | .json rb =>
            match rb.result? with
            | some (.s v) => some v
            | some .null => none
            | none => none
        | .malformed _ => none
      else none

/-- Embedding of `check_balance` (lines 46-60): a truthy `balance_hex` is parsed
with `int(_, 16)` (raising on garbage) and scaled by `10**18`; a falsy
one — every failure path of `make_rpc_call`, and the empty string —
returns 0. -/
def check_balance (w : WireOutcome) : Except String ℚ :=
  match make_rpc_call w with
  | some bh =>
      if bh = "" then .ok 0
      else
        match pyIntHex bh with
        | .ok wei => .ok ((wei : ℚ) / (10 : ℚ) ^ 18)
        | .error e => .error e
  | none => .ok 0

/-- The validation of `get_user_input_addresses` (line 163):
`addr.startswith('0x') and len(addr) == 42` — the 40 characters after
the marker are not checked for hex content. -/
def is_valid_address (addr : String) : Bool :=
  startsWith0x addr.toList && addr.length == 42

/-- The shape the spec requires of an account identifier: `0x` followed
by exactly 40 hex digits. Modelled from the spec for comparison with
`is_valid_address`; not present in the source. -/
def specAddressShape (s : String) : Bool :=
  startsWith0x s.toList && s.length == 42 &&
    (s.toList.drop 2).all (fun c => (hexDigitValue c).isSome)

/-- Embedding of `get_user_input_addresses` (lines 150-169) over the sequence of
typed lines: each line is stripped; an empty line ends the loop; a
line passing `is_valid_address` is appended; any other line only
prints `Invalid address format` and the loop continues — no exception
is raised and no RPC is issued inside this function. -/
def get_user_input_addresses : List String → List String
  | [] => []
  | line :: rest =>
      let addr := pyStrip line
      if addr = "" then []
      else if is_valid_address addr then addr :: get_user_input_addresses rest
      else get_user_input_addresses rest

/-- The manually entered addresses for which `main` (lines 195-204)
issues one `eth_getBalance` call each: exactly the output of
`get_user_input_addresses`. -/
def manualProbeTargets (lines : List String) : List String :=
  get_user_input_addresses lines

end FindAccounts

namespace CheckBalances

/-!
Embedding of `tools/debug/check_real_balances.py`.
-/

/-- Embedding of `make_rpc_call` (lines 18-45): same contract as the
`find_accounts.py` helper — `result.get('result')` on HTTP 200,
`None` on a non-200 status or any exception. -/
def make_rpc_call : WireOutcome → Option String
  | .exn _ => none
  | .response s b =>
      if s = 200 then
        match b with
        | .json rb =>
            match rb.result? with
            | some (.s v) => some v
            | some .null => none
            | none => none
        | .malformed _ => none
      else none

/-- Embedding of `check_balance` (lines 47-54): a truthy `balance_hex` is parsed and
scaled; every other case returns 0. -/
def check_balance (w : WireOutcome) : Except String ℚ :=
  match make_rpc_call w with
  | some bh =>
      if bh = "" then .ok 0
      else
        match pyIntHex bh with
        | .ok wei => .ok ((wei : ℚ) / (10 : ℚ) ^ 18)
        | .error e => .error e
  | none => .ok 0

/-- An `eth_getBalance` RPC call that failed at the wire: raised
exception, non-200 status, malformed body, or a 200 body lacking the
`result` member. -/
def rpcFailed : WireOutcome → Bool
  | .exn _ => true
  | .response s b =>
      if s = 200 then
        match b with
        | .json rb => rb.result?.isNone
        | .malformed _ => true
      else true

end CheckBalances

/-! ## Concrete inputs used to settle the claims -/

/-- An HTTP 200 response whose JSON body carries the string `v` as its
`result`. -/
def goodBody (v : String) : WireOutcome := .response 200 (.json ⟨some (.s v)⟩)

/-- A wire environment in which every battery call succeeds at HTTP
level but the reported chain id is 1 (mainnet) instead of 943. -/
def envMismatch : Method → WireOutcome
  | .clientVersion => goodBody "Geth"
  | .chainId => goodBody "0x1"
  | .getBalance => goodBody "0x0"
  | .blockNumber => goodBody "0x10"

/-- A wire environment in which every call succeeds with the expected
chain id 943 (= 0x3af). -/
def envPerfect : Method → WireOutcome
  | .clientVersion => goodBody "Geth"
  | .chainId => goodBody "0x3af"
  | .getBalance => goodBody "0x0"
  | .blockNumber => goodBody "0x10"

/-- A wire environment in which every call raises. -/
def envDead : Method → WireOutcome := fun _ => .exn "Connection refused"

/-- A wire environment whose chain-id call returns HTTP 200 with the
unparseable hex string `0xzz`, everything else succeeding. -/
def envBadChain : Method → WireOutcome
  | .chainId => goodBody "0xzz"
  | _ => envPerfect .clientVersion

/-- An HTTP 200 response whose JSON body lacks the `result` member. -/
def noResultWire : WireOutcome := .response 200 (.json ⟨none⟩)

/-- A 42-character account string with the `0x` marker but non-hex
content. -/
def badAddr : String := "0xzzzzzzzzzzzzzzzzzzzzzzzzzzzzzzzzzzzzzzzz"

/-- A well-formed account string: `0x` plus 40 hex digits. -/
def goodAddr : String := "0xaaaaaaaaaaaaaaaaaaaaaaaaaaaaaaaaaaaaaaaa"

end Vaughan

namespace Vaughan

open SimpleNet NetDebug

/-! ## C1 — chain-id mismatch classification -/

/-- C1: counterexample. An endpoint whose whole battery succeeds at
HTTP level but whose chain-id query returns 1 instead of 943 is
excluded from `working_endpoints` by `simple_network_test.py`
(`endpoint_working` is cleared at lines 159-160), contradicting the
claim that such an endpoint is classified healthy and kept in the
working set. -/
theorem claim_C1_counterexample :
    SimpleNet.simpleRun ["https://rpc.example"] (fun _ => envMismatch) =
      .ok ([("https://rpc.example",
        { clientVersion := .okS, chainId := .warnS, balance := .okS,
          blockNumber := .okS, working := false })], []) := by
  decide

/-- C1 (amended): for every endpoint whose four battery calls all
return HTTP 200 with parseable results but whose chain id differs from
943, `simple_network_test.py` clears `endpoint_working` and leaves the
endpoint out of its working list, while `network_debug.py` records all
four methods `status OK` and therefore still counts the endpoint in its
working list; neither script attaches a wrong-network finding. -/
theorem claim_C1_amended (u : String) (env : Method → WireOutcome) (cv : RpcBody)
    (v bv nv : String) (c wb nb : Int)
    (h1 : env .clientVersion = .response 200 (.json cv))
    (h2 : env .chainId = goodBody v)
    (h3 : env .getBalance = goodBody bv)
    (h4 : env .blockNumber = goodBody nv)
    (hv : pyIntHex v = .ok c) (hvne : v ≠ "") (hc : c ≠ 943)
    (hb : pyIntHex bv = .ok wb) (hbne : bv ≠ "")
    (hn : pyIntHex nv = .ok nb) (hnne : nv ≠ "") :
    (SimpleNet.simpleRun [u] (fun _ => env) =
      .ok ([(u, { clientVersion := .okS, chainId := .warnS, balance := .okS,
                  blockNumber := .okS, working := false })], [])) ∧
    NetDebug.allOk (NetDebug.battery env) = true ∧
    NetDebug.workingList (NetDebug.run [u] (fun _ => env)) = [u] := by
  have hcv : stepClientVersion (env .clientVersion) = .okS := by
    rw [h1]; simp [stepClientVersion, make_rpc_call]
  have hcid : stepChainId (env .chainId) = .ok (.warnS, c) := by
    rw [h2]; simp [stepChainId, make_rpc_call, goodBody, pyTruthy, hvne, pyIntHexJ, hv, hc]
  have hbal : stepBalance (env .getBalance) = .ok .okS := by
    rw [h3]; simp [stepBalance, make_rpc_call, goodBody, pyTruthy, hbne, pyIntHexJ, hb]
  have hblk : stepBlock (env .blockNumber) = .ok .okS := by
    rw [h4]; simp [stepBlock, make_rpc_call, goodBody, pyTruthy, hnne, pyIntHexJ, hn]
  have htest : SimpleNet.testOneEndpoint env =
      .ok { clientVersion := .okS, chainId := .warnS, balance := .okS,
            blockNumber := .okS, working := false } := by
    simp only [SimpleNet.testOneEndpoint, hcv, hcid, hbal, hblk]
    rfl
  have hall : NetDebug.allOk (NetDebug.battery env) = true := by
    simp [NetDebug.battery, NetDebug.allOk, h1, h2, h3, h4, clientVersionStep,
      chainIdStep, getBalanceStep, blockNumberStep, goodBody, pyIntHexJ, hv, hb, hn,
      NDGenRes.isOkRes, NDNumRes.isOkRes]
  refine ⟨?_, hall, ?_⟩
  · simp only [SimpleNet.simpleRun, htest]
    rfl
  · simp [NetDebug.run, NetDebug.workingList, hall]

/-- C1 amended, witnessed at the mismatch environment: chain id 1
returned, all calls otherwise succeeding. -/
theorem claim_C1_witness :
    (SimpleNet.simpleRun ["https://rpc.example"] (fun _ => envMismatch) =
      .ok ([("https://rpc.example",
        { clientVersion := .okS, chainId := .warnS, balance := .okS,
          blockNumber := .okS, working := false })], [])) ∧
    NetDebug.allOk (NetDebug.battery envMismatch) = true ∧
    NetDebug.workingList (NetDebug.run ["https://rpc.example"] (fun _ => envMismatch)) =
      ["https://rpc.example"] :=
  claim_C1_amended "https://rpc.example" envMismatch ⟨some (.s "Geth")⟩
    "0x1" "0x0" "0x10" 1 0 16
    rfl rfl rfl rfl (by decide) (by decide) (by decide)
    (by decide) (by decide) (by decide) (by decide)

/-! ## C2 — shape of the endpoint list produced by the analysis -/

/-- Unrolling the `working_endpoints` accumulation loop of
`analyze_results`. -/
lemma workingList_foldl (rs : List (String × NetDebug.NDEndpoint)) (acc : List String) :
    rs.foldl (fun acc p => if NetDebug.allOk p.2 then acc ++ [p.1] else acc) acc =
      acc ++ (rs.filter (fun p => NetDebug.allOk p.2)).map Prod.fst := by
  induction rs generalizing acc with
  | nil => simp
  | cons p ps ih =>
      simp only [List.foldl_cons, List.filter_cons]
      by_cases h : NetDebug.allOk p.2 = true
      · simp [h, ih]
      · simp [h, ih]

/-- One endpoint with a dead wire, one perfect. -/
def env2 : String → Method → WireOutcome :=
  fun u => if u = "https://a" then envDead else envPerfect

/-- C2: counterexample. With one dead endpoint and one perfect one,
the only endpoint list in the analysis output is `working_endpoints`,
which contains just the working endpoint — the dead endpoint is
dropped, so the list is not a permutation of the input list. -/
theorem claim_C2_counterexample :
    NetDebug.workingList (NetDebug.run ["https://a", "https://b"] env2) = ["https://b"] ∧
    ¬ (NetDebug.workingList (NetDebug.run ["https://a", "https://b"] env2)).Perm
        ["https://a", "https://b"] := by
  exact ⟨by decide, by decide⟩

/-- C2 (amended): the endpoint list the analysis emits is
`working_endpoints`: the subsequence of the input list — input order
preserved, no duplication — consisting of exactly the endpoints whose
whole battery was recorded OK. Unhealthy endpoints are dropped rather
than ranked last, and no latency sorting is applied. (The `Nodup`
hypothesis mirrors the `rpc_results` dict being keyed by URL.) -/
theorem claim_C2_amended (urls : List String) (env : String → Method → WireOutcome)
    (_hnd : urls.Nodup) :
    NetDebug.workingList (NetDebug.run urls env) =
      urls.filter (fun u => NetDebug.allOk (NetDebug.battery (env u))) := by
  rw [NetDebug.workingList, workingList_foldl]
  simp only [NetDebug.run, List.filter_map, List.map_map, List.nil_append]
  rw [show (Prod.fst ∘ fun u => (u, NetDebug.battery (env u))) = id from rfl]
  simp only [List.map_id]
  rfl

/-- C2 amended, witnessed on the two-endpoint input: the emitted list
is the filter of the input by battery health. -/
theorem claim_C2_witness :
    NetDebug.workingList (NetDebug.run ["https://a", "https://b"] env2) =
      (["https://a", "https://b"].filter
        (fun u => NetDebug.allOk (NetDebug.battery (env2 u)))) :=
  claim_C2_amended ["https://a", "https://b"] env2 (by decide)

/-! ## C3 — exit status -/

/-- C3: counterexample. A run in which every call of the single
endpoint raises yields zero healthy endpoints, yet the interpreter
exit status is 0 — the claim requires a non-zero status in this case. -/
theorem claim_C3_counterexample :
    SimpleNet.simpleRun ["https://a"] (fun _ => envDead) =
      .ok ([("https://a",
        { clientVersion := .failS, chainId := .failS, balance := .failS,
          blockNumber := .failS, working := false })], []) ∧
    SimpleNet.script_exit_code ["https://a"] (fun _ => envDead) = 0 := by
  decide

/-- C3 (amended): both scripts exit 0 on every run, endpoint health
notwithstanding — `main` never calls `sys.exit`, and the `__main__`
guards catch `KeyboardInterrupt` and every `Exception` and fall off
the end of the script. -/
theorem claim_C3_amended (urls : List String) (env : String → Method → WireOutcome) :
    SimpleNet.script_exit_code urls env = 0 ∧ NetDebug.ndExitCode urls env = 0 := by
  constructor
  · unfold SimpleNet.script_exit_code
    cases SimpleNet.simpleRun urls env <;> rfl
  · rfl

/-! ## C4 — account-identifier validation -/

/-- Every address the interactive loop keeps passed the source's
validation. -/
lemma mem_user_input_valid (lines : List String) (a : String)
    (h : a ∈ FindAccounts.get_user_input_addresses lines) :
    FindAccounts.is_valid_address a = true := by
  induction lines with
  | nil => simp [FindAccounts.get_user_input_addresses] at h
  | cons l ls ih =>
      simp only [FindAccounts.get_user_input_addresses] at h
      split_ifs at h with h1 h2
      · exact absurd h (List.not_mem_nil a)
      · rcases List.mem_cons.mp h with rfl | hm
        · exact h2
        · exact ih hm
      · exact ih h

/-- C4: counterexample. The 42-character non-hex string `badAddr`
fails the spec's account shape, yet it passes the source's validation
and `main` issues an `eth_getBalance` call for it — no `InputError` is
raised and a network call does happen for an input that is not a
40-hex-digit identifier. -/
theorem claim_C4_counterexample :
    FindAccounts.specAddressShape badAddr = false ∧
    FindAccounts.is_valid_address badAddr = true ∧
    FindAccounts.manualProbeTargets [badAddr, ""] = [badAddr] := by
  decide

/-- C4 (amended): the interactive loop validates only the `0x` marker
and the total length 42 — hex content is not checked, so non-hex
42-character strings are accepted and probed. An input failing this
check is skipped with a printed message — no `InputError` exists, the
loop just continues — and no RPC call is issued for it; in particular
`0x123` is dropped and the remaining lines are processed unchanged. -/
theorem claim_C4_amended (lines : List String) (a : String)
    (h : a ∈ FindAccounts.manualProbeTargets lines) :
    FindAccounts.is_valid_address a = true ∧
    FindAccounts.manualProbeTargets ("0x123" :: lines) =
      FindAccounts.manualProbeTargets lines := by
  exact ⟨mem_user_input_valid lines a h, rfl⟩

/-- C4 amended, witnessed at a well-formed manually entered address. -/
theorem claim_C4_witness :
    FindAccounts.is_valid_address goodAddr = true ∧
    FindAccounts.manualProbeTargets ("0x123" :: [goodAddr, ""]) =
      FindAccounts.manualProbeTargets [goodAddr, ""] :=
  claim_C4_amended [goodAddr, ""] goodAddr (by decide)

/-! ## C5 — responses lacking a result member -/

/-- C5: counterexample. An HTTP-200 response whose JSON body lacks the
`result` member is recorded as a successful method result by
`network_debug.py` for `web3_clientVersion` (value `Unknown`),
`eth_chainId` (chain id 0) and `eth_blockNumber` (block 0), and by
`simple_network_test.py` for the balance and block steps (default
`0x0`). -/
theorem claim_C5_counterexample :
    NetDebug.clientVersionStep noResultWire = .ok (.s "Unknown") ∧
    NetDebug.chainIdStep noResultWire = .ok 0 ∧
    NetDebug.blockNumberStep noResultWire = .ok 0 ∧
    SimpleNet.stepBalance noResultWire = .ok .okS ∧
    SimpleNet.stepBlock noResultWire = .ok .okS := by
  decide

/-- C5 (amended): only the `eth_getBalance` handler of
`network_debug.py` treats an absent `result` member as a failure (as
does any non-200 status); the other handlers of both scripts
substitute a default (`Unknown` or `0x0`) and record the HTTP-200
response as OK. -/
theorem claim_C5_amended (b : RpcBody) (hb : b.result? = none)
    (s : Nat) (bo : BodyOutcome) (hs : s ≠ 200) :
    NetDebug.getBalanceStep (.response 200 (.json b)) = .failed "No result in response" ∧
    NetDebug.getBalanceStep (.response s bo) = .failed ("HTTP " ++ toString s) ∧
    NetDebug.clientVersionStep (.response 200 (.json b)) = .ok (.s "Unknown") ∧
    NetDebug.chainIdStep (.response 200 (.json b)) = .ok 0 ∧
    NetDebug.blockNumberStep (.response 200 (.json b)) = .ok 0 ∧
    SimpleNet.stepBalance (.response 200 (.json b)) = .ok .okS := by
  obtain ⟨r⟩ := b
  cases hb
  refine ⟨by decide, ?_, by decide, by decide, by decide, by decide⟩
  simp [NetDebug.getBalanceStep, hs]

/-- C5 amended, witnessed at an empty JSON body and status 404. -/
theorem claim_C5_witness :
    NetDebug.getBalanceStep (.response 200 (.json ⟨none⟩)) =
      .failed "No result in response" ∧
    NetDebug.getBalanceStep (.response 404 (.json ⟨none⟩)) =
      .failed ("HTTP " ++ toString 404) ∧
    NetDebug.clientVersionStep (.response 200 (.json ⟨none⟩)) = .ok (.s "Unknown") ∧
    NetDebug.chainIdStep (.response 200 (.json ⟨none⟩)) = .ok 0 ∧
    NetDebug.blockNumberStep (.response 200 (.json ⟨none⟩)) = .ok 0 ∧
    SimpleNet.stepBalance (.response 200 (.json ⟨none⟩)) = .ok .okS :=
  claim_C5_amended ⟨none⟩ rfl 404 (.json ⟨none⟩) (by decide)

/-! ## C6 — unparseable hex results -/

/-- C6: counterexample. When the first endpoint's chain-id call
returns HTTP 200 with the unparseable hex string `0xzz`,
`simple_network_test.py`'s checker raises `ValueError` out of
`test_rpc_endpoints`: the whole run aborts (the second endpoint is
never reported), so the check function is not total over response
strings. -/
theorem claim_C6_counterexample :
    SimpleNet.simpleRun ["https://a", "https://b"] (fun _ => envBadChain) =
      .error "invalid literal for int() with base 16: 0xzz" := by
  decide

/-- C6 (amended): `network_debug.py` parses hex results inside the
per-method `try` and records a parse failure as a failed method result
without disturbing the rest of the battery; `simple_network_test.py`
parses outside any handler, so a truthy unparseable result string
raises `ValueError` out of the checker, aborting the remaining methods
and endpoints — it is caught only by the top-level handler. -/
theorem claim_C6_amended (v e : String) (hp : pyIntHex v = .error e) (hne : v ≠ "")
    (env : Method → WireOutcome) (henv : env .chainId = goodBody v)
    (u0 : String) (urls : List String) :
    NetDebug.chainIdStep (goodBody v) = .failed e ∧
    (NetDebug.battery env).chainId = .failed e ∧
    SimpleNet.testOneEndpoint env = .error e ∧
    SimpleNet.simpleRun (u0 :: urls) (fun _ => env) = .error e := by
  have h1 : NetDebug.chainIdStep (goodBody v) = .failed e := by
    simp [NetDebug.chainIdStep, goodBody, pyIntHexJ, hp]
  have h2 : SimpleNet.stepChainId (env .chainId) = .error e := by
    rw [henv]
    simp [SimpleNet.stepChainId, SimpleNet.make_rpc_call, goodBody, pyTruthy, hne,
      pyIntHexJ, hp]
  have h3 : SimpleNet.testOneEndpoint env = .error e := by
    simp only [SimpleNet.testOneEndpoint, h2]
    rfl
  refine ⟨h1, ?_, h3, ?_⟩
  · simp [NetDebug.battery, henv, h1]
  · simp only [SimpleNet.simpleRun, h3]
    rfl

/-- C6 amended, witnessed at the `0xzz` chain-id environment. -/
theorem claim_C6_witness :
    NetDebug.chainIdStep (goodBody "0xzz") =
      .failed "invalid literal for int() with base 16: 0xzz" ∧
    (NetDebug.battery envBadChain).chainId =
      .failed "invalid literal for int() with base 16: 0xzz" ∧
    SimpleNet.testOneEndpoint envBadChain =
      .error "invalid literal for int() with base 16: 0xzz" ∧
    SimpleNet.simpleRun ("https://a" :: ["https://b"]) (fun _ => envBadChain) =
      .error "invalid literal for int() with base 16: 0xzz" :=
  claim_C6_amended "0xzz" "invalid literal for int() with base 16: 0xzz"
    (by decide) (by decide) envBadChain rfl "https://a" ["https://b"]

/-! ## C7 — request ids -/

/-- C7: counterexample. The four battery requests of a one-endpoint
run all carry the id 1: the ids are not pairwise distinct, so request
ids are not unique within a run. -/
theorem claim_C7_counterexample :
    ((runRequests ["https://a"] ACCOUNT_ADDRESS).map (fun p => p.2.id)) = [1, 1, 1, 1] ∧
    ¬ ((runRequests ["https://a"] ACCOUNT_ADDRESS).map (fun p => p.2.id)).Nodup := by
  decide

/-- C7 (amended): every JSON-RPC request either script sends carries
the constant id 1 — the id is shared by all requests of a run, not
unique to each. -/
theorem claim_C7_amended (urls : List String) (acct : String)
    (p : String × RpcRequest) (h : p ∈ runRequests urls acct) :
    p.2.id = 1 := by
  simp only [runRequests, List.mem_flatMap, List.mem_map] at h
  obtain ⟨u, _, m, _, hp⟩ := h
  rw [← hp]
  rfl

/-- C7 amended, witnessed at the chain-id request of a one-endpoint
run. -/
theorem claim_C7_witness :
    (("https://a", mkRequest ACCOUNT_ADDRESS .chainId) : String × RpcRequest).2.id = 1 :=
  claim_C7_amended ["https://a"] ACCOUNT_ADDRESS
    ("https://a", mkRequest ACCOUNT_ADDRESS .chainId) (by decide)

/-! ## C8 — failures captured, runs never aborted by network errors -/

/-- Wire outcomes that `make_rpc_call` maps to `status FAILED`:
a raised exception (timeout, refusal, certificate error,
name-resolution error, `HTTPError`), a non-200 status, or a malformed
body. -/
def wireFails : WireOutcome → Bool
  | .exn _ => true
  | .response s b =>
      if s = 200 then
        match b with
        | .json _ => false
        | .malformed _ => true
      else true

/-- True exactly on `.ok`. -/
def exOk : Except String Int → Bool
  | .ok _ => true
  | .error _ => false

/-- Response bodies whose handling in `simple_network_test.py` cannot
raise: the `result` member is absent, null, empty, or a parseable hex
string. (The complement — a truthy unparseable string — is the C6
`ValueError` escape.) -/
def bodySafe (b : RpcBody) : Bool :=
  match b.result? with
  | none => true
  | some .null => true
  | some (.s v) => if v = "" then true else exOk (pyIntHex v)

/-- Wire outcomes whose handling in `simple_network_test.py` cannot
raise; every network-level failure is of this kind. -/
def wireSafe : WireOutcome → Bool
  | .exn _ => true
  | .response s b =>
      if s = 200 then
        match b with
        | .json rb => bodySafe rb
        | .malformed _ => true
      else true

/-- A failing wire call comes back from `make_rpc_call` as
`status FAILED` with a message — the exception does not escape. -/
lemma make_rpc_call_failed (w : WireOutcome) (h : wireFails w = true) :
    ∃ e, SimpleNet.make_rpc_call w = .failed e := by
  cases w with
  | exn m => exact ⟨m, rfl⟩
  | response s b =>
      by_cases hs : s = 200
      · subst hs
        cases b with
        | json rb => simp [wireFails] at h
        | malformed m => exact ⟨m, rfl⟩
      · exact ⟨"HTTP " ++ toString s, by simp [SimpleNet.make_rpc_call, hs]⟩

/-- A `.ok` witness out of `exOk`. -/
lemma exOk_true (x : Except String Int) (h : exOk x = true) : ∃ n, x = .ok n := by
  cases x with
  | ok n => exact ⟨n, rfl⟩
  | error e => simp [exOk] at h

/-- Wire failure is recorded as the cross-mark outcome by the
client-version step. -/
lemma stepClientVersion_fail (w : WireOutcome) (h : wireFails w = true) :
    SimpleNet.stepClientVersion w = .failS := by
  obtain ⟨e, he⟩ := make_rpc_call_failed w h
  simp [SimpleNet.stepClientVersion, he]

/-- Wire failure is recorded as the cross-mark outcome by the chain-id
step, without raising. -/
lemma stepChainId_fail (w : WireOutcome) (h : wireFails w = true) :
    SimpleNet.stepChainId w = .ok (.failS, 0) := by
  obtain ⟨e, he⟩ := make_rpc_call_failed w h
  simp [SimpleNet.stepChainId, he]

/-- Wire failure is recorded as the cross-mark outcome by the balance
step, without raising. -/
lemma stepBalance_fail (w : WireOutcome) (h : wireFails w = true) :
    SimpleNet.stepBalance w = .ok .failS := by
  obtain ⟨e, he⟩ := make_rpc_call_failed w h
  simp [SimpleNet.stepBalance, he]

/-- Wire failure is recorded as the cross-mark outcome by the
block-number step, without raising. -/
lemma stepBlock_fail (w : WireOutcome) (h : wireFails w = true) :
    SimpleNet.stepBlock w = .ok .failS := by
  obtain ⟨e, he⟩ := make_rpc_call_failed w h
  simp [SimpleNet.stepBlock, he]

/-- The chain-id step cannot raise on a safe wire outcome. -/
lemma stepChainId_safe (w : WireOutcome) (h : wireSafe w = true) :
    ∃ p, SimpleNet.stepChainId w = .ok p := by
  cases w with
  | exn m => exact ⟨(.failS, 0), rfl⟩
  | response s b =>
      by_cases hs : s = 200
      · subst hs
        cases b with
        | malformed m => exact ⟨(.failS, 0), rfl⟩
        | json rb =>
            simp only [wireSafe, if_pos] at h
            cases hr : rb.result? with
            | none =>
                exact ⟨(.warnS, 0), by
                  simp [SimpleNet.stepChainId, SimpleNet.make_rpc_call, hr, pyTruthy,
                    pyIntHexJ, show pyIntHex "0x0" = .ok 0 from by decide]⟩
            | some v =>
                cases v with
                | null =>
                    exact ⟨(.warnS, 0), by
                      simp [SimpleNet.stepChainId, SimpleNet.make_rpc_call, hr, pyTruthy]⟩
                | s t =>
                    by_cases ht : t = ""
                    · subst ht
                      exact ⟨(.warnS, 0), by
                        simp [SimpleNet.stepChainId, SimpleNet.make_rpc_call, hr, pyTruthy]⟩
                    · rw [bodySafe, hr] at h
                      simp only [if_neg ht] at h
                      obtain ⟨n, hn⟩ := exOk_true _ h
                      by_cases h943 : n = 943
                      · exact ⟨(.okS, n), by
                          simp [SimpleNet.stepChainId, SimpleNet.make_rpc_call, hr,
                            pyTruthy, ht, pyIntHexJ, hn, h943]⟩
                      · exact ⟨(.warnS, n), by
                          simp [SimpleNet.stepChainId, SimpleNet.make_rpc_call, hr,
                            pyTruthy, ht, pyIntHexJ, hn, h943]⟩
      · exact ⟨(.failS, 0), by simp [SimpleNet.stepChainId, SimpleNet.make_rpc_call, hs]⟩

/-- The balance step cannot raise on a safe wire outcome. -/
lemma stepBalance_safe (w : WireOutcome) (h : wireSafe w = true) :
    ∃ o, SimpleNet.stepBalance w = .ok o := by
  cases w with
  | exn m => exact ⟨.failS, rfl⟩
  | response s b =>
      by_cases hs : s = 200
      · subst hs
        cases b with
        | malformed m => exact ⟨.failS, rfl⟩
        | json rb =>
            simp only [wireSafe, if_pos] at h
            cases hr : rb.result? with
            | none =>
                exact ⟨.okS, by
                  simp [SimpleNet.stepBalance, SimpleNet.make_rpc_call, hr, pyTruthy,
                    pyIntHexJ, show pyIntHex "0x0" = .ok 0 from by decide]⟩
            | some v =>
                cases v with
                | null =>
                    exact ⟨.failS, by
                      simp [SimpleNet.stepBalance, SimpleNet.make_rpc_call, hr, pyTruthy]⟩
                | s t =>
                    by_cases ht : t = ""
                    · subst ht
                      exact ⟨.failS, by
                        simp [SimpleNet.stepBalance, SimpleNet.make_rpc_call, hr, pyTruthy]⟩
                    · rw [bodySafe, hr] at h
                      simp only [if_neg ht] at h
                      obtain ⟨n, hn⟩ := exOk_true _ h
                      exact ⟨.okS, by
                        simp [SimpleNet.stepBalance, SimpleNet.make_rpc_call, hr,
                          pyTruthy, ht, pyIntHexJ, hn]⟩
      · exact ⟨.failS, by simp [SimpleNet.stepBalance, SimpleNet.make_rpc_call, hs]⟩

/-- The block-number step cannot raise on a safe wire outcome. -/
lemma stepBlock_safe (w : WireOutcome) (h : wireSafe w = true) :
    ∃ o, SimpleNet.stepBlock w = .ok o := by
  cases w with
  | exn m => exact ⟨.failS, rfl⟩
  | response s b =>
      by_cases hs : s = 200
      · subst hs
        cases b with
        | malformed m => exact ⟨.failS, rfl⟩
        | json rb =>
            simp only [wireSafe, if_pos] at h
            cases hr : rb.result? with
            | none =>
                exact ⟨.okS, by
                  simp [SimpleNet.stepBlock, SimpleNet.make_rpc_call, hr, pyTruthy,
                    pyIntHexJ, show pyIntHex "0x0" = .ok 0 from by decide]⟩
            | some v =>
                cases v with
                | null =>
                    exact ⟨.failS, by
                      simp [SimpleNet.stepBlock, SimpleNet.make_rpc_call, hr, pyTruthy]⟩
                | s t =>
                    by_cases ht : t = ""
                    · subst ht
                      exact ⟨.failS, by
                        simp [SimpleNet.stepBlock, SimpleNet.make_rpc_call, hr, pyTruthy]⟩
                    · rw [bodySafe, hr] at h
                      simp only [if_neg ht] at h
                      obtain ⟨n, hn⟩ := exOk_true _ h
                      exact ⟨.okS, by
                        simp [SimpleNet.stepBlock, SimpleNet.make_rpc_call, hr,
                          pyTruthy, ht, pyIntHexJ, hn]⟩
      · exact ⟨.failS, by simp [SimpleNet.stepBlock, SimpleNet.make_rpc_call, hs]⟩

/-- On safe wire outcomes the simple checker completes one endpoint,
and every failing call of that endpoint shows up as the cross-mark
outcome of its method. -/
lemma testOne_total (env : Method → WireOutcome)
    (h : ∀ m, wireSafe (env m) = true) :
    ∃ r, SimpleNet.testOneEndpoint env = .ok r ∧
      ∀ m, wireFails (env m) = true → r.fieldOf m = .failS := by
  obtain ⟨p, hp⟩ := stepChainId_safe _ (h .chainId)
  obtain ⟨b1, hb1⟩ := stepBalance_safe _ (h .getBalance)
  obtain ⟨b2, hb2⟩ := stepBlock_safe _ (h .blockNumber)
  refine ⟨{ clientVersion := SimpleNet.stepClientVersion (env .clientVersion)
            chainId := p.1
            balance := b1
            blockNumber := b2
            working := (SimpleNet.stepClientVersion (env .clientVersion)).isOkS &&
              p.1.isOkS && b1.isOkS && b2.isOkS }, ?_, ?_⟩
  · simp only [SimpleNet.testOneEndpoint, hp, hb1, hb2]
    rfl
  · intro m hm
    cases m with
    | clientVersion =>
        simpa [SimpleNet.SimpleReport.fieldOf] using stepClientVersion_fail _ hm
    | chainId =>
        have h2 := stepChainId_fail _ hm
        rw [hp] at h2
        injection h2 with h2
        simp [SimpleNet.SimpleReport.fieldOf, h2]
    | getBalance =>
        have h2 := stepBalance_fail _ hm
        rw [hb1] at h2
        injection h2 with h2
    | blockNumber =>
        have h2 := stepBlock_fail _ hm
        rw [hb2] at h2
        injection h2 with h2

/-- On safe wire outcomes the whole simple run completes: one report
per endpoint, in order, failing calls recorded as failures. -/
lemma simpleRun_total (urls : List String) (env : String → Method → WireOutcome)
    (h : ∀ u m, wireSafe (env u m) = true) :
    ∃ rs ws, SimpleNet.simpleRun urls env = .ok (rs, ws) ∧
      rs.map Prod.fst = urls ∧
      ∀ p ∈ rs, ∀ m, wireFails (env p.1 m) = true → p.2.fieldOf m = .failS := by
  induction urls with
  | nil => exact ⟨[], [], rfl, rfl, by simp⟩
  | cons u us ih =>
      obtain ⟨rs, ws, hrun, hmap, hfail⟩ := ih
      obtain ⟨r, hr, hrf⟩ := testOne_total (env u) (h u)
      refine ⟨(u, r) :: rs, if r.working then u :: ws else ws, ?_, ?_, ?_⟩
      · simp only [SimpleNet.simpleRun, hr, hrun]
        rfl
      · simp [hmap]
      · intro p hp m hm
        rcases List.mem_cons.mp hp with rfl | hmem
        · exact hrf m hm
        · exact hfail p hmem m hm

/-- Whether the `endpoint_results` entry of a given method has
`status OK`. -/
def NDEndpoint.okOf (t : NetDebug.NDEndpoint) : Method → Bool
  | .clientVersion => t.clientVersion.isOkRes
  | .chainId => t.chainId.isOkRes
  | .getBalance => t.getBalance.isOkRes
  | .blockNumber => t.blockNumber.isOkRes

/-- A failing wire call is recorded `status FAILED` by every
`network_debug.py` method block. -/
lemma ndStep_fail (w : WireOutcome) (h : wireFails w = true) (m : Method) :
    NDEndpoint.okOf (NetDebug.battery (fun _ => w)) m = false := by
  cases w with
  | exn e => cases m <;> rfl
  | response s b =>
      by_cases hs : s = 200
      · subst hs
        cases b with
        | json rb => simp [wireFails] at h
        | malformed e => cases m <;> rfl
      · cases m <;>
          simp [NDEndpoint.okOf, NetDebug.battery, NetDebug.clientVersionStep,
            NetDebug.chainIdStep, NetDebug.getBalanceStep, NetDebug.blockNumberStep,
            hs, NetDebug.NDGenRes.isOkRes, NetDebug.NDNumRes.isOkRes]

/-- Counting successes in `test_ssl_connectivity` touches every
endpoint: the count equals the number of endpoints whose handshake
succeeded, failures only being skipped, never aborting the loop. -/
lemma ssl_count_eq (urls : List String) (env : String → SimpleNet.SslOutcome) :
    SimpleNet.ssl_success_count urls env =
      (urls.filter (fun u => (env u).isOkSsl)).length := by
  have key : ∀ (l : List String) (acc : Nat),
      l.foldl (fun acc u => match env u with | .ok _ => acc + 1 | .err _ => acc) acc =
        acc + (l.filter (fun u => (env u).isOkSsl)).length := by
    intro l
    induction l with
    | nil => simp
    | cons u us ih =>
        intro acc
        rw [List.foldl_cons]
        cases he : env u with
        | ok ver =>
            have hflt : (u :: us).filter (fun u => (env u).isOkSsl) =
                u :: us.filter (fun u => (env u).isOkSsl) := by
              simp [List.filter_cons, he, SimpleNet.SslOutcome.isOkSsl]
            rw [ih, hflt, List.length_cons]
            show acc + 1 + (us.filter (fun u => (env u).isOkSsl)).length =
              acc + ((us.filter (fun u => (env u).isOkSsl)).length + 1)
            omega
        | err msg =>
            have hflt : (u :: us).filter (fun u => (env u).isOkSsl) =
                us.filter (fun u => (env u).isOkSsl) := by
              simp [List.filter_cons, he, SimpleNet.SslOutcome.isOkSsl]
            rw [ih, hflt]
  simpa [SimpleNet.ssl_success_count] using key urls 0

/-- C8: network-level failures (raised exceptions — timeout, refusal,
certificate error, name-resolution error —, non-200 statuses,
malformed bodies) are always captured as failed results with a detail
message and never escape a prober or checker: under the safety
condition every such failure is of (which only excludes the C6 hex
`ValueError`), the simple run completes with a report for every
endpoint in order, each failing call marked failed; every TLS probe is
counted over the full list; and in `network_debug.py` every failing
call of any endpoint is recorded `status FAILED` while the run still
maps every input endpoint to a report. -/
theorem claim_C8_failures_captured (urls : List String)
    (env : String → Method → WireOutcome) (sslEnv : String → SimpleNet.SslOutcome)
    (h : ∀ u m, wireSafe (env u m) = true) :
    (∃ rs ws, SimpleNet.simpleRun urls env = .ok (rs, ws) ∧
      rs.map Prod.fst = urls ∧
      ∀ p ∈ rs, ∀ m, wireFails (env p.1 m) = true → p.2.fieldOf m = .failS) ∧
    SimpleNet.ssl_success_count urls sslEnv =
      (urls.filter (fun u => (sslEnv u).isOkSsl)).length ∧
    (∀ u m, wireFails (env u m) = true →
      NDEndpoint.okOf (NetDebug.battery (env u)) m = false) ∧
    (NetDebug.run urls env).map Prod.fst = urls := by
  refine ⟨simpleRun_total urls env h, ssl_count_eq urls sslEnv, ?_, ?_⟩
  · intro u m hm
    have := ndStep_fail (env u m) hm m
    cases m <;> simpa [NDEndpoint.okOf, NetDebug.battery] using this
  · simp only [NetDebug.run, List.map_map]
    rw [show (Prod.fst ∘ fun u => (u, NetDebug.battery (env u))) = id from rfl]
    simp

/-- A TLS environment with one failed handshake. -/
def sslEnvC : String → SimpleNet.SslOutcome :=
  fun u => if u = "https://a" then .err "certificate verify failed" else .ok "TLSv1.3"

/-- A wire environment in which every call of every endpoint times
out. -/
def envTimeout : String → Method → WireOutcome := fun _ _ => .exn "timed out"

/-- C8, witnessed at a run in which every RPC call of both endpoints
times out and one TLS handshake fails. -/
theorem claim_C8_witness :
    (∃ rs ws,
      SimpleNet.simpleRun ["https://a", "https://b"] envTimeout = .ok (rs, ws) ∧
      rs.map Prod.fst = ["https://a", "https://b"] ∧
      ∀ p ∈ rs, ∀ m, wireFails (envTimeout p.1 m) = true →
        p.2.fieldOf m = .failS) ∧
    SimpleNet.ssl_success_count ["https://a", "https://b"] sslEnvC =
      (["https://a", "https://b"].filter (fun u => (sslEnvC u).isOkSsl)).length ∧
    (∀ u m, wireFails (envTimeout u m) = true →
      NDEndpoint.okOf (NetDebug.battery (envTimeout u)) m = false) ∧
    (NetDebug.run ["https://a", "https://b"] envTimeout).map Prod.fst =
      ["https://a", "https://b"] :=
  claim_C8_failures_captured ["https://a", "https://b"] envTimeout
    sslEnvC (fun _ _ => rfl)

/-! ## C9 — determinism of the analysis step -/

/-- C9: both analysis functions are pure functions of their inputs —
the embedding exposes every value `analyze_and_recommend` and
`analyze_results` read (no clock, randomness or other state appears in
their source), and two invocations on equal inputs yield equal
outputs. -/
theorem claim_C9_deterministic (w1 w2 : List String) (i1 i2 d1 d2 s1 s2 : Bool)
    (r1 r2 : NetDebug.NDResults)
    (hw : w1 = w2) (hi : i1 = i2) (hd : d1 = d2) (hs : s1 = s2) (hr : r1 = r2) :
    SimpleNet.analyze_and_recommend w1 i1 d1 s1 =
      SimpleNet.analyze_and_recommend w2 i2 d2 s2 ∧
    NetDebug.analyze_results r1 = NetDebug.analyze_results r2 := by
  subst hw hi hd hs hr
  exact ⟨rfl, rfl⟩

/-- C9, witnessed at concrete analysis inputs. -/
theorem claim_C9_witness :
    SimpleNet.analyze_and_recommend ["https://a"] true false true =
      SimpleNet.analyze_and_recommend ["https://a"] true false true ∧
    NetDebug.analyze_results ⟨true, [], [], [], []⟩ =
      NetDebug.analyze_results ⟨true, [], [], [], []⟩ :=
  claim_C9_deterministic ["https://a"] ["https://a"] true true false false true true
    ⟨true, [], [], [], []⟩ ⟨true, [], [], [], []⟩ rfl rfl rfl rfl rfl

/-! ## C10 — failed balance queries read as zero -/

/-- The two scripts' `check_balance` helpers are the same function. -/
lemma find_check_balance_eq (w : WireOutcome) :
    FindAccounts.check_balance w = CheckBalances.check_balance w := rfl

/-- C10: whenever the underlying `eth_getBalance` call fails — raised
network exception, non-200 status, malformed body, or a 200 body
lacking `result` — both balance helpers return 0, and a genuine zero
balance (`result` `0x0`) returns the same 0: at this interface a
failed query is indistinguishable from a zero balance. -/
theorem claim_C10_zero_on_failure (w : WireOutcome)
    (h : CheckBalances.rpcFailed w = true) :
    CheckBalances.check_balance w = .ok 0 ∧
    FindAccounts.check_balance w = .ok 0 ∧
    CheckBalances.check_balance (goodBody "0x0") = .ok 0 := by
  have hnone : CheckBalances.make_rpc_call w = none := by
    cases w with
    | exn m => rfl
    | response s b =>
        by_cases hs : s = 200
        · subst hs
          cases b with
          | malformed m => rfl
          | json rb =>
              simp only [CheckBalances.rpcFailed, if_true, Option.isNone_iff_eq_none,
                if_pos] at h
              simp [CheckBalances.make_rpc_call, h]
        · simp [CheckBalances.make_rpc_call, hs]
  have h0 : CheckBalances.check_balance w = .ok 0 := by
    simp [CheckBalances.check_balance, hnone]
  have hz : CheckBalances.check_balance (goodBody "0x0") = .ok 0 := by
    have hp : pyIntHex "0x0" = .ok 0 := by decide
    simp [CheckBalances.check_balance, CheckBalances.make_rpc_call, goodBody, hp]
  exact ⟨h0, by rw [find_check_balance_eq]; exact h0, hz⟩

/-- C10, witnessed at a raised connection error. -/
theorem claim_C10_witness :
    CheckBalances.check_balance (.exn "Connection refused") = .ok 0 ∧
    FindAccounts.check_balance (.exn "Connection refused") = .ok 0 ∧
    CheckBalances.check_balance (goodBody "0x0") = .ok 0 :=
  claim_C10_zero_on_failure (.exn "Connection refused") rfl

end Vaughan
